import Mathlib

/-!
Verification development for the job-application-tracker email parsing engine
(`src/services/parser.service.ts`).

The TypeScript source is shallowly embedded: JavaScript strings are modelled
as `List Char` (sequences of Unicode scalar values), JavaScript regular
expressions are modelled by a small executable backtracking matcher `mrun`
over an explicit syntax `Rx` covering exactly the constructs the source
uses (literals, character classes, concatenation, alternation,
greedy and lazy repetition, one capturing group, the `^`/`$` anchors with and
without the `m` flag, and the word boundary `\b`), and `Date` parsing /
formatting is modelled for the ISO-8601 subset `YYYY-MM-DD[THH:MM:SS[.mmm]][Z]`
(strings outside this subset are modelled as JavaScript Invalid Dates; the
process time zone is assumed to be UTC, so `setDate(getDate() + n)` is
day-count arithmetic on the epoch-milliseconds value).  Fallible
JavaScript operations (`toISOString` on an Invalid Date throws a
`RangeError`) are modelled with `Option`, `none` standing for a thrown
exception.
-/

/-- JavaScript strings, modelled as lists of Unicode scalar values. -/
abbrev Str := List Char

/-- Embed a Lean string literal as a `Str`. -/
def str (s : String) : Str := s.data

/-- The apostrophe character (U+0027). -/
def apos : Char := Char.ofNat 39

/-- JavaScript `LineTerminator` characters, which the regexp `.` does not match. -/
def isLineTerm (c : Char) : Bool :=
  c = Char.ofNat 10 || c = Char.ofNat 13 || c = Char.ofNat 0x2028 || c = Char.ofNat 0x2029

/-- JavaScript regexp `\s` (WhiteSpace and LineTerminator productions). -/
def jsWsChar (c : Char) : Bool :=
  c = ' ' || c = Char.ofNat 9 || c = Char.ofNat 10 || c = Char.ofNat 11 ||
  c = Char.ofNat 12 || c = Char.ofNat 13 || c = Char.ofNat 0xa0 || c = Char.ofNat 0xfeff ||
  c = Char.ofNat 0x1680 || (0x2000 ≤ c.toNat && c.toNat ≤ 0x200a) ||
  c = Char.ofNat 0x2028 || c = Char.ofNat 0x2029 || c = Char.ofNat 0x202f ||
  c = Char.ofNat 0x205f || c = Char.ofNat 0x3000

def isAsciiUpper (c : Char) : Bool := 'A' ≤ c && c ≤ 'Z'
def isAsciiLower (c : Char) : Bool := 'a' ≤ c && c ≤ 'z'
def isAsciiLetter (c : Char) : Bool := isAsciiUpper c || isAsciiLower c
def isAsciiDigit (c : Char) : Bool := '0' ≤ c && c ≤ '9'
def isAsciiAlnum (c : Char) : Bool := isAsciiLetter c || isAsciiDigit c

/-- JavaScript regexp `\w`. -/
def isWordChar (c : Char) : Bool := isAsciiAlnum c || c = '_'

/-- ASCII lower-casing of one character (the source only case-folds ASCII data). -/
def asciiLower (c : Char) : Char :=
  if isAsciiUpper c then Char.ofNat (c.toNat + 32) else c

/-- ASCII upper-casing of one character. -/
def asciiUpper (c : Char) : Char :=
  if isAsciiLower c then Char.ofNat (c.toNat - 32) else c

/-- Model of `String.prototype.toLowerCase` (ASCII fragment). -/
def jsToLower (s : Str) : Str := s.map asciiLower

/-- Model of `String.prototype.trim`. -/
def jsTrim (s : Str) : Str :=
  ((s.dropWhile jsWsChar).reverse.dropWhile jsWsChar).reverse

/-- The substring of `t` from index `a` (inclusive) to `b` (exclusive). -/
def jsSlice (t : Str) (a b : Nat) : Str := (t.take b).drop a

/-- Case-insensitive equality of one pattern character with one text character,
as JavaScript regexp `Canonicalize` does for ASCII patterns under the `i` flag. -/
def ciEq (p c : Char) : Bool := asciiLower p = asciiLower c

/-- Syntax of the regular expressions used by the source: `eps` the empty
regexp, `cls` a single-character class given by its predicate, `seq`/`alt`
concatenation and alternation (alternatives tried left to right), `star g r`
repetition (`g = true` greedy, `g = false` lazy), `grp` the single capturing
group, `bol m`/`eol m` the `^`/`$` assertions (`m` the multiline flag), and
`wb` the `\b` assertion. -/
inductive Rx where
  | eps : Rx
  | cls : (Char → Bool) → Rx
  | seq : Rx → Rx → Rx
  | alt : Rx → Rx → Rx
  | star : Bool → Rx → Rx
  | grp : Rx → Rx
  | bol : Bool → Rx
  | eol : Bool → Rx
  | wb : Rx

/-- Structural size of a regexp, used to compute an adequate fuel bound. -/
def rxSize : Rx → Nat
  | .eps => 1
  | .cls _ => 1
  | .seq a b => 1 + rxSize a + rxSize b
  | .alt a b => 1 + rxSize a + rxSize b
  | .star _ a => 2 + rxSize a
  | .grp a => 1 + rxSize a
  | .bol _ => 1
  | .eol _ => 1
  | .wb => 1

/-- Concatenation of a list of regexps. -/
def rxCat (l : List Rx) : Rx := l.foldr Rx.seq Rx.eps

/-- Alternation of a list of regexps, tried left to right. -/
def rxAlt (l : List Rx) : Rx :=
  match l with
  | [] => Rx.eps
  | [r] => r
  | r :: rest => Rx.alt r (rxAlt rest)

/-- Case-sensitive literal. -/
def rlit (s : String) : Rx := rxCat (s.data.map fun c => Rx.cls fun ch => ch = c)

/-- Case-insensitive literal (a pattern compiled under the `i` flag). -/
def rliti (s : String) : Rx := rxCat (s.data.map fun c => Rx.cls (ciEq c))

/-- Greedy `+`. -/
def rplus (r : Rx) : Rx := Rx.seq r (Rx.star true r)

/-- Lazy `+?`. -/
def rplusL (r : Rx) : Rx := Rx.seq r (Rx.star false r)

/-- Greedy `?` (tries the non-empty alternative first). -/
def ropt (r : Rx) : Rx := Rx.alt r Rx.eps

/-- The regexp `.` (any character but a line terminator). -/
def rdot : Rx := Rx.cls fun c => !isLineTerm c

/-- Does the `^` assertion hold at index `i` (multiline flag `m`)? -/
def atBol (t : Str) (m : Bool) (i : Nat) : Bool :=
  i = 0 || (m && (t.getD (i - 1) ' ' |> isLineTerm))

/-- Does the `$` assertion hold at index `i` (multiline flag `m`)? -/
def atEol (t : Str) (m : Bool) (i : Nat) : Bool :=
  i = t.length || (m && (t.getD i ' ' |> isLineTerm))

/-- Does the `\b` assertion hold at index `i`? -/
def atWb (t : Str) (i : Nat) : Bool :=
  let before := if h : 0 < i ∧ i - 1 < t.length then isWordChar (t.get ⟨i - 1, h.2⟩) else false
  let after := if h : i < t.length then isWordChar (t.get ⟨i, h⟩) else false
  before != after

/-- Span of capturing group 1, when set. -/
abbrev Caps := Option (Nat × Nat)

/-- Backtracking matcher.  `mrun fuel t r i k` returns the list of
`(end-index, captures)` pairs of all ways `r` can match `t` starting at index
`i`, in the order a JavaScript backtracking engine explores them (so the head
is the match the engine commits to).  An iteration of `star` that consumes no
input is discarded, as in the `RepeatMatcher` of ECMA-262.  `fuel` bounds the
recursion depth; every call site supplies `(t.length + 2) * (rxSize r + 2)`,
which exceeds the depth of any exploration (each level of nesting descends
into a strict subterm, except restarting a `star`, which strictly advances the
index and happens at most `t.length` times). -/
def mrun : Nat → Str → Rx → Nat → Caps → List (Nat × Caps)
  | 0, _, _, _, _ => []
  | _ + 1, _, .eps, i, k => [(i, k)]
  | _ + 1, t, .cls p, i, k =>
      match t.get? i with
      | some c => if p c then [(i + 1, k)] else []
      | none => []
  | fuel + 1, t, .seq a b, i, k =>
      (mrun fuel t a i k).flatMap fun jk => mrun fuel t b jk.1 jk.2
  | fuel + 1, t, .alt a b, i, k => mrun fuel t a i k ++ mrun fuel t b i k
  | fuel + 1, t, .star g a, i, k =>
      let tail := (mrun fuel t a i k).flatMap fun jk =>
        if i < jk.1 then mrun fuel t (.star g a) jk.1 jk.2 else []
      if g then tail ++ [(i, k)] else (i, k) :: tail
  | fuel + 1, t, .grp a, i, k =>
      (mrun fuel t a i k).map fun jk => (jk.1, some (i, jk.1))
  | _ + 1, t, .bol m, i, k => if atBol t m i then [(i, k)] else []
  | _ + 1, t, .eol m, i, k => if atEol t m i then [(i, k)] else []
  | _ + 1, t, .wb, i, k => if atWb t i then [(i, k)] else []

/-- Fuel adequate for matching `r` against `t` (see `mrun`). -/
def fuelFor (t : Str) (r : Rx) : Nat := (t.length + 2) * (rxSize r + 2)

/-- The first (highest-priority) match of `r` in `t` whose start index is
exactly `i`: `(start, end, captures)`. -/
def jsExecAt (t : Str) (r : Rx) (i : Nat) : Option (Nat × Nat × Caps) :=
  match (mrun (fuelFor t r) t r i none).head? with
  | some (e, k) => some (i, e, k)
  | none => none

/-- Leftmost match of `r` in `t` at index `i` or later, as `RegExp.prototype.exec`
finds it: the smallest start index admitting a match, with the backtracking
engine's preferred match there. -/
def jsExecFrom (t : Str) (r : Rx) (i : Nat) : Option (Nat × Nat × Caps) :=
  (List.range' i (t.length + 1 - i)).findSome? fun j => jsExecAt t r j

/-- Model of `r.test(t)`. -/
def jsTest (t : Str) (r : Rx) : Bool := (jsExecFrom t r 0).isSome

/-- The text of capturing group 1 of a match (`match[1]`).  All the capturing
groups in the source patterns are mandatory, so group 1 always participates in
a successful match; the `none` branch is dead code kept for totality. -/
def cap1 (t : Str) (m : Nat × Nat × Caps) : Str :=
  match m.2.2 with
  | some (a, b) => jsSlice t a b
  | none => []

/-- Model of `match[0]`: the full text of a match. -/
def cap0 (t : Str) (m : Nat × Nat × Caps) : Str := jsSlice t m.1 m.2.1

/-- The spans matched by a global regexp scan of `t` from index `i`, as the
repeated-`exec` loop of `String.prototype.replace`/`split` with the `g` flag
produces them (an empty match advances the scan position by one). -/
def gmatches (fuel : Nat) (t : Str) (r : Rx) (i : Nat) : List (Nat × Nat) :=
  match fuel with
  | 0 => []
  | fuel + 1 =>
      match jsExecFrom t r i with
      | none => []
      | some (s, e, _) =>
          if s < e then (s, e) :: gmatches fuel t r e
          else (s, s) :: gmatches fuel t r (s + 1)

/-- Rebuild a string from its unmatched pieces, putting `rep` in place of each
matched span.  `i` is the index the previous piece ended at. -/
def splice (t : Str) (rep : Str) : List (Nat × Nat) → Nat → Str
  | [], i => t.drop i
  | (s, e) :: rest, i => jsSlice t i s ++ rep ++ splice t rep rest e

/-- Model of `t.replace(r, rep)` with a global regexp. -/
def jsReplaceAll (t : Str) (r : Rx) (rep : Str) : Str :=
  splice t rep (gmatches (t.length + 2) t r 0) 0

/-- Model of `t.replace(r, rep)` with a non-global regexp (first match only). -/
def jsReplaceFirst (t : Str) (r : Rx) (rep : Str) : Str :=
  match jsExecFrom t r 0 with
  | none => t
  | some (s, e, _) => jsSlice t 0 s ++ rep ++ t.drop e

/-- The pieces of `t` between the spans, for `String.prototype.split`. -/
def cutSpans (t : Str) : List (Nat × Nat) → Nat → List Str
  | [], i => [t.drop i]
  | (s, e) :: rest, i => jsSlice t i s :: cutSpans t rest e

/-- Model of `t.split(r)` for a regexp that cannot match the empty string. -/
def jsSplit (t : Str) (r : Rx) : List Str :=
  cutSpans t (gmatches (t.length + 2) t r 0) 0

/-! ### Model of the JavaScript `Date` operations used by the source

`new Date(string)` evaluates the ECMA-262 Date Time String Format; strings not
in that format give an Invalid Date (every engine also rejects strings such as
`"not-a-date"`).  We model the format subset `YYYY-MM-DD[THH:MM:SS[.mmm]][Z]`
(four-digit years, a valid calendar date, hours 00-23, minutes and seconds
00-59), returning the time value in milliseconds since the epoch; all other
strings are modelled as Invalid Dates (`none`).  The process time zone is
assumed to be UTC, so a date-time without `Z` denotes the same instant as with
it, and `setDate(getDate() + n)` adds exactly `n * 86400000` milliseconds. -/

/-- The numeric value of an ASCII digit. -/
def digitVal (c : Char) : Nat := c.toNat - 48

/-- Is `y` a leap year (proleptic Gregorian, as ECMA-262 time computations)? -/
def isLeapYear (y : Nat) : Bool := (y % 4 = 0 && y % 100 ≠ 0) || y % 400 = 0

/-- Days in month `m` of year `y`. -/
def daysInMonth (y m : Nat) : Nat :=
  if m = 2 then (if isLeapYear y then 29 else 28)
  else if m = 4 || m = 6 || m = 9 || m = 11 then 30
  else 31

/-- Days from the epoch 1970-01-01 to the civil date `y-m-d`
(days-from-civil algorithm over the proleptic Gregorian calendar). -/
def daysFromCivil (y m d : Int) : Int :=
  let yy := if m ≤ 2 then y - 1 else y
  let era := Int.fdiv (if 0 ≤ yy then yy else yy - 399) 400
  let yoe := yy - era * 400
  let mp := Int.emod (m + 9) 12
  let doy := Int.fdiv (153 * mp + 2) 5 + d - 1
  let doe := yoe * 365 + Int.fdiv yoe 4 - Int.fdiv yoe 100 + doy
  era * 146097 + doe - 719468

/-- The civil date `(y, m, d)` of epoch day number `z`
(civil-from-days algorithm). -/
def civilFromDays (z : Int) : Int × Int × Int :=
  let z := z + 719468
  let era := Int.fdiv (if 0 ≤ z then z else z - 146096) 146097
  let doe := z - era * 146097
  let yoe := Int.fdiv (doe - Int.fdiv doe 1460 + Int.fdiv doe 36524 - Int.fdiv doe 146096) 365
  let y := yoe + era * 400
  let doy := doe - (365 * yoe + Int.fdiv yoe 4 - Int.fdiv yoe 100)
  let mp := Int.fdiv (5 * doy + 2) 153
  let d := doy - Int.fdiv (153 * mp + 2) 5 + 1
  let m := if mp < 10 then mp + 3 else mp - 9
  (if mp < 10 then y else y + 1, m, d)

/-- Read exactly `n` ASCII digits from the front of `s`. -/
def readDigits : Nat → Str → Option (Nat × Str)
  | 0, s => some (0, s)
  | _ + 1, [] => none
  | n + 1, c :: rest =>
      if isAsciiDigit c then
        (readDigits n rest).map fun p => (digitVal c * 10 ^ n + p.1, p.2)
      else none

/-- Parse the time-of-day tail `THH:MM:SS[.mmm]` into milliseconds. -/
def parseTimeTail (s : Str) : Option (Nat × Str) :=
  match s with
  | 'T' :: rest =>
      match readDigits 2 rest with
      | some (hh, ':' :: r1) =>
          match readDigits 2 r1 with
          | some (mi, ':' :: r2) =>
              match readDigits 2 r2 with
              | some (ss, r3) =>
                  if hh ≤ 23 && mi ≤ 59 && ss ≤ 59 then
                    match r3 with
                    | '.' :: r4 =>
                        match readDigits 3 r4 with
                        | some (ms, r5) => some (hh * 3600000 + mi * 60000 + ss * 1000 + ms, r5)
                        | none => none
                    | _ => some (hh * 3600000 + mi * 60000 + ss * 1000, r3)
                  else none
              | _ => none
          | _ => none
      | _ => none
  | _ => none

/-- Model of `new Date(s).getTime()`: the time value in milliseconds since the
epoch, or `none` for an Invalid Date. -/
def jsParseDate (s : Str) : Option Int :=
  match readDigits 4 s with
  | some (y, '-' :: r1) =>
      match readDigits 2 r1 with
      | some (m, '-' :: r2) =>
          match readDigits 2 r2 with
          | some (d, r3) =>
              if 1 ≤ m && m ≤ 12 && 1 ≤ d && d ≤ daysInMonth y m then
                let dayMs : Int := daysFromCivil y m d * 86400000
                match r3 with
                | [] => some dayMs
                | _ =>
                    match parseTimeTail r3 with
                    | some (tod, rest) =>
                        match rest with
                        | [] => some (dayMs + tod)
                        | ['Z'] => some (dayMs + tod)
                        | _ => none
                    | none => none
              else none
          | _ => none
      | _ => none
  | _ => none

/-- Decimal digits of `n`, at least `w` of them (left-padded with zeros). -/
def padNum (w : Nat) (n : Nat) : Str :=
  let ds := Nat.toDigits 10 n
  List.replicate (w - ds.length) '0' ++ ds

/-- The year field of `toISOString`: four digits for 0-9999, the expanded
signed six-digit form otherwise. -/
def isoYear (y : Int) : Str :=
  if y < 0 then '-' :: padNum 6 (-y).toNat
  else if 9999 < y then '+' :: padNum 6 y.toNat
  else padNum 4 y.toNat

/-- The date part of `toISOString` of the time value `ms`
(`d.toISOString().split("T")[0]`). -/
def isoDatePart (ms : Int) : Str :=
  let ymd := civilFromDays (Int.fdiv ms 86400000)
  isoYear ymd.1 ++ '-' :: padNum 2 ymd.2.1.toNat ++ '-' :: padNum 2 ymd.2.2.toNat

/-! ### Data model

`ParsedEmail` is the `NormalizedEmail` input record (`src/types` is not in
the provided sources; the fields are those the parser reads, with the names
the source uses).  `EmailCategory` is the six-value category union; job
statuses are the literal strings the source maps to, so `status : Str`. -/

inductive EmailCategory where
  | application_confirmation
  | rejection
  | interview_invitation
  | offer
  | follow_up
  | unknown
deriving DecidableEq

/-- The literal string of a category value (TypeScript `EmailCategory` is a
union of these string literals). -/
def categoryStr : EmailCategory → Str
  | .application_confirmation => str "application_confirmation"
  | .rejection => str "rejection"
  | .interview_invitation => str "interview_invitation"
  | .offer => str "offer"
  | .follow_up => str "follow_up"
  | .unknown => str "unknown"

structure ParsedEmail where
  id : Str
  threadId : Str
  «from» : Str
  subject : Str
  date : Str
  body : Str
  htmlBody : Option Str
deriving DecidableEq

structure JobApplication where
  company : Str
  position : Str
  dateApplied : Str
  status : Str
  salaryRange : Option Str
  location : Option Str
  jobLink : Option Str
  emailThreadLink : Str
  followUpDate : Option Str
  notes : Str
  sourceEmail : Str
deriving DecidableEq

/-! ### Classifier (`CATEGORY_PATTERNS`, `classifyEmail`, lines 10-98) -/

/-- Patterns of the `offer` group. -/
def offerPatterns : List Rx :=
  [rliti "offer letter",
   rliti "job offer",
   rliti "we are pleased to offer",
   rliti "extend an offer",
   rliti "offer of employment",
   rxCat [rliti "congratulations", Rx.star true rdot, rliti "offer"]]

/-- Patterns of the `interview_invitation` group. -/
def interviewPatterns : List Rx :=
  [rxCat [rliti "schedule", Rx.star true rdot, rliti "interview"],
   rxCat [rliti "interview", Rx.star true rdot, rliti "schedule"],
   rliti "phone screen",
   rliti "invite you to interview",
   rliti "like to schedule",
   rxCat [rliti "next steps", Rx.star true rdot, rliti "interview"],
   rliti "technical assessment",
   rliti "coding challenge",
   rliti "take-home",
   rliti "onsite interview",
   rliti "virtual interview",
   rliti "meet the team"]

/-- Patterns of the `rejection` group (`/won't be moving forward/i` is built
around an explicit apostrophe character). -/
def rejectionPatterns : List Rx :=
  [rliti "unfortunately",
   rliti "not moving forward",
   rliti "other candidates",
   rliti "position has been filled",
   rliti "decided not to proceed",
   rliti "will not be moving",
   rliti "not be able to offer",
   rliti "pursue other candidates",
   rliti "after careful consideration",
   rliti "regret to inform",
   rxCat [rliti "won", Rx.cls (ciEq apos), rliti "t be moving forward"]]

/-- Patterns of the `application_confirmation` group. -/
def confirmationPatterns : List Rx :=
  [rxCat [rliti "application", Rx.star true rdot, rliti "received"],
   rliti "thank you for applying",
   rxCat [rliti "application", Rx.star true rdot, rliti "submitted"],
   rliti "we received your application",
   rliti "application confirmation",
   rliti "successfully applied",
   rxCat [rliti "application", Rx.star true rdot, rliti "review"]]

/-- Patterns of the `follow_up` group. -/
def followUpPatterns : List Rx :=
  [rliti "following up",
   rliti "checking in",
   rliti "update on your application",
   rxCat [rliti "status", Rx.star true rdot, rliti "application"],
   rliti "wanted to reach out"]

/-- `CATEGORY_PATTERNS` (ATS-aware version, lines 10-77). -/
def CATEGORY_PATTERNS : List (EmailCategory × List Rx) :=
  [(.offer, offerPatterns),
   (.interview_invitation, interviewPatterns),
   (.rejection, rejectionPatterns),
   (.application_confirmation, confirmationPatterns),
   (.follow_up, followUpPatterns)]

/-- The classification text `` `${email.subject} ${email.body}` ``. -/
def searchText (e : ParsedEmail) : Str := e.subject ++ str " " ++ e.body

/-- The `for (const { category, patterns } of CATEGORY_PATTERNS)` loop:
first group any of whose patterns tests positive wins. -/
def classifyGo : List (EmailCategory × List Rx) → Str → EmailCategory
  | [], _ => .unknown
  | (cat, ps) :: rest, text =>
      if ps.any fun p => jsTest text p then cat else classifyGo rest text

/-- `classifyEmail` (ATS-aware version, lines 88-98). -/
def classifyEmail (e : ParsedEmail) : EmailCategory :=
  classifyGo CATEGORY_PATTERNS (searchText e)

/-- `CATEGORY_PATTERNS` of the second (older) copy of the module
(lines 500-567); its contents are textually identical to the first copy. -/
def CATEGORY_PATTERNS_OLD : List (EmailCategory × List Rx) :=
  [(.offer,
    [rliti "offer letter",
     rliti "job offer",
     rliti "we are pleased to offer",
     rliti "extend an offer",
     rliti "offer of employment",
     rxCat [rliti "congratulations", Rx.star true rdot, rliti "offer"]]),
   (.interview_invitation,
    [rxCat [rliti "schedule", Rx.star true rdot, rliti "interview"],
     rxCat [rliti "interview", Rx.star true rdot, rliti "schedule"],
     rliti "phone screen",
     rliti "invite you to interview",
     rliti "like to schedule",
     rxCat [rliti "next steps", Rx.star true rdot, rliti "interview"],
     rliti "technical assessment",
     rliti "coding challenge",
     rliti "take-home",
     rliti "onsite interview",
     rliti "virtual interview",
     rliti "meet the team"]),
   (.rejection,
    [rliti "unfortunately",
     rliti "not moving forward",
     rliti "other candidates",
     rliti "position has been filled",
     rliti "decided not to proceed",
     rliti "will not be moving",
     rliti "not be able to offer",
     rliti "pursue other candidates",
     rliti "after careful consideration",
     rliti "regret to inform",
     rxCat [rliti "won", Rx.cls (ciEq apos), rliti "t be moving forward"]]),
   (.application_confirmation,
    [rxCat [rliti "application", Rx.star true rdot, rliti "received"],
     rliti "thank you for applying",
     rxCat [rliti "application", Rx.star true rdot, rliti "submitted"],
     rliti "we received your application",
     rliti "application confirmation",
     rliti "successfully applied",
     rxCat [rliti "application", Rx.star true rdot, rliti "review"]]),
   (.follow_up,
    [rliti "following up",
     rliti "checking in",
     rliti "update on your application",
     rxCat [rliti "status", Rx.star true rdot, rliti "application"],
     rliti "wanted to reach out"])]

/-- `classifyEmail` of the second (older) copy (lines 578-588); its body is
textually identical to the first copy. -/
def classifyEmailOld (e : ParsedEmail) : EmailCategory :=
  classifyGo CATEGORY_PATTERNS_OLD (searchText e)

/-! ### Company extraction (lines 133-330) -/

/-- `\s+`. -/
def wsP : Rx := rplus (Rx.cls jsWsChar)

/-- `\s*`. -/
def wsS : Rx := Rx.star true (Rx.cls jsWsChar)

/-- The class `[A-Za-z0-9\s&.,'-]` of company-name characters (closed under
case, so it is its own canonicalization under the `i` flag). -/
def clsCompanyChar : Rx :=
  Rx.cls fun c =>
    isAsciiAlnum c || jsWsChar c || c = '&' || c = '.' || c = ',' || c = apos || c = '-'

/-- `[A-Z]` under the `i` flag: any ASCII letter. -/
def clsLetterCI : Rx := Rx.cls isAsciiLetter

/-- `[A-Z]` with no flag. -/
def clsUpper : Rx := Rx.cls isAsciiUpper

/-- The capturing group `([A-Z][A-Za-z0-9\s&.,'-]+?)` of the case-insensitive
company patterns. -/
def grpCompanyCI : Rx := Rx.grp (Rx.seq clsLetterCI (rplusL clsCompanyChar))

/-- The same capturing group in the flagless subject patterns. -/
def grpCompanyCS : Rx := Rx.grp (Rx.seq clsUpper (rplusL clsCompanyChar))

/-- `GENERIC_SENDER_NAMES` (line 134):
`/^(no[- ]?reply|do[- ]?not[- ]?reply|recruiting|careers|talent|hr|jobs|notifications?|info|support|admin|hello|team|mailer|updates?|alerts?)/i`. -/
def GENERIC_SENDER_NAMES : Rx :=
  let sep := ropt (Rx.cls fun c => c = '-' || c = ' ')
  rxCat [Rx.bol false, Rx.grp (rxAlt
    [rxCat [rliti "no", sep, rliti "reply"],
     rxCat [rliti "do", sep, rliti "not", sep, rliti "reply"],
     rliti "recruiting", rliti "careers", rliti "talent", rliti "hr", rliti "jobs",
     rxCat [rliti "notification", ropt (rliti "s")],
     rliti "info", rliti "support", rliti "admin", rliti "hello", rliti "team",
     rliti "mailer",
     rxCat [rliti "update", ropt (rliti "s")],
     rxCat [rliti "alert", ropt (rliti "s")]])]

/-- `SENDER_SUFFIXES` (line 138):
`/\s+(recruiting|careers|talent acquisition|talent|team|hr|jobs|hiring|staffing|notifications?)\s*$/i`. -/
def SENDER_SUFFIXES : Rx :=
  rxCat [wsP, Rx.grp (rxAlt
    [rliti "recruiting", rliti "careers", rliti "talent acquisition", rliti "talent",
     rliti "team", rliti "hr", rliti "jobs", rliti "hiring", rliti "staffing",
     rxCat [rliti "notification", ropt (rliti "s")]]), wsS, Rx.eol false]

/-- The legal-suffix regexp of `cleanCompanyName` (line 287):
`/\s*(Inc\.?|LLC|Ltd\.?|Corp\.?|Co\.?)\s*$/i`. -/
def LEGAL_SUFFIXES : Rx :=
  let dot := ropt (Rx.cls fun c => c = '.')
  rxCat [wsS, Rx.grp (rxAlt
    [rxCat [rliti "Inc", dot], rliti "LLC", rxCat [rliti "Ltd", dot],
     rxCat [rliti "Corp", dot], rxCat [rliti "Co", dot]]), wsS, Rx.eol false]

/-- `ATS_DOMAINS` (lines 142-157). -/
def ATS_DOMAINS : List Str :=
  [str "greenhouse.io", str "lever.co", str "workday.com", str "myworkdayjobs.com",
   str "icims.com", str "smartrecruiters.com", str "ashbyhq.com", str "jobvite.com",
   str "bamboohr.com", str "applytojob.com", str "recruitee.com", str "breezy.hr",
   str "jazz.co", str "rippling.com"]

/-- The stop-word list of `cleanCompanyName` (lines 292-313). -/
def badCompanyWords : List Str :=
  [str "the", str "a", str "an", str "your", str "our", str "this", str "that",
   str "us", str "we", str "thank", str "thanks", str "hi", str "hello", str "dear",
   str "application", str "confirmation", str "update", str "status", str "re", str "fwd"]

/-- `cleanCompanyName` (lines 284-317): strip one sender suffix, one legal
suffix, collapse whitespace runs to single spaces, trim; reject stop words and
the empty result. -/
def cleanCompanyName (name : Str) : Option Str :=
  let cleaned := jsTrim (jsReplaceAll
    (jsReplaceFirst (jsReplaceFirst name SENDER_SUFFIXES []) LEGAL_SUFFIXES [])
    wsP (str " "))
  if badCompanyWords.contains (jsToLower cleaned) then none
  else if cleaned = [] then none
  else some cleaned

/-- `titleCase` (lines 320-330). -/
def titleCase (domain : Str) : Str :=
  if domain = str "randstadservices" then str "Randstad"
  else if domain = str "smartrecruiters" then str "SmartRecruiters"
  else if domain = str "bamboohr" then str "BambooHR"
  else match domain with
    | [] => []
    | c :: rest => asciiUpper c :: rest

/-- The body-text company patterns (lines 186-201), in source order. -/
def bodyCompanyPatterns : List Rx :=
  [rxCat [ropt (rxCat [rliti "your", wsP]), rliti "application", wsP,
     rxAlt [rliti "to", rliti "at", rliti "with", rliti "for"], wsP,
     ropt (rxCat [rliti "the", wsP]), grpCompanyCI,
     wsP, rxAlt [rliti "has been", rliti "was", rliti "is", rliti "for the", rliti "for a"], Rx.wb],
   rxCat [rxAlt [rliti "applying", rliti "applied"], wsP,
     rxAlt [rliti "to", rliti "at", rliti "with", rliti "for"], wsP,
     ropt (rxCat [rliti "the", wsP]), grpCompanyCI,
     rxAlt [rxCat [wsS, Rx.cls fun c => c = '.' || c = '!' || c = ','],
            rxCat [wsP, rxAlt [rliti "for", rliti "and", rliti "as"], Rx.wb]]],
   rxCat [rliti "interest", wsP, rliti "in", wsP,
     ropt (rxCat [rliti "working", wsP, rxAlt [rliti "at", rliti "with"], wsP]), grpCompanyCI,
     rxAlt [rxCat [wsS, Rx.cls fun c => c = '.' || c = '!' || c = ','],
            rxCat [wsP, rxAlt [rliti "and", rliti "we"], Rx.wb]]],
   rxCat [rliti "on", wsP, rliti "behalf", wsP, rliti "of", wsP, grpCompanyCI,
     wsS, Rx.cls fun c => c = '.' || c = '!' || c = ','],
   rxCat [rxAlt [rliti "position", rliti "role", rliti "opportunity"], wsP,
     rxAlt [rliti "at", rliti "with"], wsP, grpCompanyCI,
     rxAlt [rxCat [wsS, Rx.cls fun c => c = '.' || c = '!' || c = ','],
            rxCat [wsP, rxAlt [rliti "and", rliti "has", rliti "is", rliti "we"], Rx.wb]]],
   rxCat [Rx.bol true, grpCompanyCI, wsP,
     rxAlt [rxCat [rliti "has", wsP, rliti "received"], rliti "received",
            rliti "confirms", rliti "would like"]],
   rxCat [rliti "team", wsP, rliti "at", wsP, grpCompanyCI,
     wsS, Rx.cls fun c => c = '.' || c = '!' || c = ',']]

/-- The subject-line company patterns (lines 236-245, no flags, so the leading
group character is `[A-Z]` case-sensitively), in source order. -/
def subjectCompanyPatterns : List Rx :=
  let tail := rxAlt
    [rxCat [wsS, Rx.cls fun c => c = '-' || c = '–' || c = '|' || c = '!'],
     rxCat [wsS, Rx.eol false]]
  [rxCat [Rx.wb, rlit "at", wsP, grpCompanyCS, tail],
   rxCat [Rx.wb, rlit "from", wsP, grpCompanyCS, tail],
   rxCat [Rx.wb, rlit "with", wsP, grpCompanyCS, tail],
   rxCat [Rx.bol false, grpCompanyCS, wsS,
     Rx.cls fun c => c = '-' || c = '–' || c = '|' || c = ':', Rx.cls jsWsChar]]

/-- The display-name regexp of `extractCompanyFromSender` (line 218):
`/^"?([^"<]+)"?\s*</`. -/
def senderNameRx : Rx :=
  let quote := ropt (Rx.cls fun c => c = '"')
  rxCat [Rx.bol false, quote,
    Rx.grp (rplus (Rx.cls fun c => !(c = '"' || c = '<'))), quote, wsS,
    Rx.cls fun c => c = '<']

/-- The domain regexp of `extractCompanyFromDomain` (line 261): `/@([^.>]+)\./`. -/
def domainRx : Rx :=
  rxCat [Rx.cls fun c => c = '@',
    Rx.grp (rplus (Rx.cls fun c => !(c = '.' || c = '>'))),
    Rx.cls fun c => c = '.']

/-- One iteration of the company pattern loop: if the pattern matched and the
cleaned capture has length in `[2, 80)`, return it, otherwise continue with
`next`. -/
def companyStep (t : Str) (m? : Option (Nat × Nat × Caps)) (next : Option Str) : Option Str :=
  match m? with
  | some m =>
      match cleanCompanyName (cap1 t m) with
      | some name =>
          if 2 ≤ name.length && name.length < 80 then some name else next
      | none => next
  | none => next

/-- The shared shape of the pattern loops of `extractCompanyFromBody` and
`extractCompanyFromSubject` (lines 203-211 and 247-255, textually identical):
first pattern whose cleaned capture has length in `[2, 80)` wins, otherwise
the loop continues. -/
def firstCompanyMatch : List Rx → Str → Option Str
  | [], _ => none
  | p :: rest, t => companyStep t (jsExecFrom t p 0) (firstCompanyMatch rest t)

/-- `extractCompanyFromBody` (lines 185-214). -/
def extractCompanyFromBody (body : Str) : Option Str :=
  firstCompanyMatch bodyCompanyPatterns body

/-- `extractCompanyFromSender` (lines 216-233). -/
def extractCompanyFromSender (from_ : Str) : Option Str :=
  match jsExecFrom from_ senderNameRx 0 with
  | none => none
  | some m =>
      if jsTest (jsTrim (cap1 from_ m)) GENERIC_SENDER_NAMES then none
      else
        match cleanCompanyName (jsTrim (cap1 from_ m)) with
        | some cleaned =>
            if 2 ≤ cleaned.length && cleaned.length < 80 then some cleaned else none
        | none => none

/-- `extractCompanyFromSubject` (lines 235-258). -/
def extractCompanyFromSubject (subject : Str) : Option Str :=
  firstCompanyMatch subjectCompanyPatterns subject

/-- `extractCompanyFromDomain` (lines 260-282).  `d.split(".")[0]` is the part
of `d` before its first dot. -/
def extractCompanyFromDomain (from_ : Str) : Option Str :=
  match jsExecFrom from_ domainRx 0 with
  | none => none
  | some m =>
      let domain := jsToLower (cap1 from_ m)
      let skip :=
        [str "gmail", str "yahoo", str "hotmail", str "outlook", str "mail",
         str "proton", str "icloud"] ++ ATS_DOMAINS.map fun d => d.takeWhile fun c => c ≠ '.'
      if skip.contains domain then none else some (titleCase domain)

/-- Does `p` occur at the front of `t`? -/
def startsWithStr : Str → Str → Bool
  | _, [] => true
  | [], _ :: _ => false
  | c :: t, p :: ps => c = p && startsWithStr t ps

/-- Model of `t.includes(p)`. -/
def jsIncludes : Str → Str → Bool
  | [], p => startsWithStr [] p
  | c :: rest, p => startsWithStr (c :: rest) p || jsIncludes rest p

/-- JavaScript `a || b` on a nullable string `a`: `null` and the empty string
fall through to `b`. -/
def jsOrS (a : Option Str) (d : Str) : Str :=
  match a with
  | some s => if s = [] then d else s
  | none => d

/-- The ATS test of `extractCompany` (lines 173-175): a case-insensitive
substring test of each ATS domain against the whole raw `From` header. -/
def isAtsSender (from_ : Str) : Bool :=
  ATS_DOMAINS.any fun d => jsIncludes (jsToLower from_) d

/-- `extractCompany` (lines 159-183). -/
def extractCompany (e : ParsedEmail) (body : Str) : Str :=
  let bodyCompany := extractCompanyFromBody body
  let fromCompany := extractCompanyFromSender e.«from»
  let subjectCompany := extractCompanyFromSubject e.subject
  let domainCompany := extractCompanyFromDomain e.«from»
  if isAtsSender e.«from» then
    jsOrS bodyCompany (jsOrS subjectCompany (jsOrS fromCompany
      (jsOrS domainCompany (str "Unknown Company"))))
  else
    jsOrS fromCompany (jsOrS bodyCompany (jsOrS subjectCompany
      (jsOrS domainCompany (str "Unknown Company"))))

/-! ### Position extraction (lines 332-434) -/

/-- The class `[A-Za-z0-9\s/,.-]` of position characters. -/
def clsPositionChar : Rx :=
  Rx.cls fun c => isAsciiAlnum c || jsWsChar c || c = '/' || c = ',' || c = '.' || c = '-'

/-- `JOB_TITLE_KEYWORDS` (lines 335-336). -/
def JOB_TITLE_KEYWORDS : Rx :=
  let sep := ropt (Rx.cls fun c => c = '-' || c = ' ')
  rxCat [Rx.wb, Rx.grp (rxAlt
    [rliti "developer", rliti "engineer", rliti "designer", rliti "analyst",
     rliti "manager", rliti "director", rliti "coordinator", rliti "specialist",
     rliti "consultant", rliti "administrator", rliti "architect", rliti "lead",
     rliti "senior", rliti "junior", rliti "intern", rliti "associate", rliti "assistant",
     rxCat [rliti "full", sep, rliti "stack"],
     rxCat [rliti "front", sep, rliti "end"],
     rxCat [rliti "back", sep, rliti "end"],
     rliti "devops", rliti "qa", rliti "sre", rliti "data", rliti "software",
     rliti "web", rliti "mobile", rliti "cloud", rliti "product", rliti "project",
     rliti "program", rliti "marketing", rliti "sales", rliti "support",
     rliti "operations", rxCat [rliti "it", Rx.wb], rliti "ux", rliti "ui"]), Rx.wb]

/-- `NOT_A_POSITION` (lines 339-340). -/
def NOT_A_POSITION : Rx :=
  rxCat [Rx.bol false, Rx.grp (rxAlt
    [rliti "thank you", rliti "thanks", rliti "application", rliti "confirmation",
     rliti "update", rliti "status", rliti "their interest", rliti "your interest",
     rliti "our team", rliti "the team", rliti "dear", rliti "hi", rliti "hello",
     rliti "regarding", rliti "re", rliti "fwd", rliti "fw"])]

/-- The body position patterns (lines 373-386), in source order. -/
def bodyPositionPatterns : List Rx :=
  let grpPos := Rx.grp (rplusL clsPositionChar)
  let endPunct := Rx.cls fun c => c = '.' || c = Char.ofNat 10 || c = ',' || c = ';'
  let commaPunct := Rx.cls fun c => c = '.' || c = ',' || c = ';'
  [rxCat [rliti "for", wsP, rliti "the", wsP, grpPos, wsP,
     rxAlt [rliti "position", rliti "role", rliti "opening", rliti "opportunity"]],
   rxCat [rxAlt [rliti "position", rliti "role", rxCat [rliti "job", wsS, rliti "title"]],
     wsS, Rx.cls fun c => c = ':' || c = '–' || c = '-', wsS, grpPos,
     rxAlt [rxCat [wsS, endPunct],
            rxCat [wsP, rxAlt [rliti "at", rliti "with", rliti "in", rliti "is"], Rx.wb]]],
   rxCat [rxAlt [rliti "applied", rliti "applying"], wsP, rxAlt [rliti "for", rliti "to"], wsP,
     ropt (rxCat [rliti "the", wsP]), ropt (rxCat [rliti "position", wsP, rliti "of", wsP]),
     grpPos,
     rxAlt [rxCat [wsP, rxAlt [rliti "position", rliti "role", rliti "at", rliti "with"], Rx.wb],
            rxCat [wsS, commaPunct]]],
   rxCat [rliti "application", wsP, rliti "for", wsP,
     ropt (rxCat [rliti "the", wsP]), ropt (rxCat [rliti "position", wsP, rliti "of", wsP]),
     grpPos,
     rxAlt [rxCat [wsP, rxAlt [rliti "position", rliti "role", rliti "at", rliti "with", rliti "has"], Rx.wb],
            rxCat [wsS, commaPunct]]],
   rxCat [rliti "the", wsP, grpPos, wsP,
     rxAlt [rliti "role", rliti "position", rliti "opening"], wsP,
     rxAlt [rliti "at", rliti "with"], Rx.wb],
   rxCat [rliti "interested", wsP, rliti "in", wsP,
     ropt (rxCat [rliti "the", wsP]), ropt (rxCat [rliti "position", wsP, rliti "of", wsP]),
     grpPos,
     rxAlt [rxCat [wsP, rxAlt [rliti "position", rliti "role", rliti "at", rliti "with"], Rx.wb],
            rxCat [wsS, commaPunct]]]]

/-- The subject position patterns (lines 402-411), in source order. -/
def subjectPositionPatterns : List Rx :=
  let grpPos := Rx.grp (rplusL clsPositionChar)
  [rxCat [rliti "application", wsS, Rx.cls fun c => c = '-' || c = '–' || c = ':', wsS, grpPos,
     rxAlt [rxCat [wsP, rxAlt [rliti "at", rliti "with", rliti "-"], Rx.wb],
            rxCat [wsS, Rx.eol false]]],
   rxCat [Rx.bol false, ropt (rxCat [rliti "re:", wsS]), grpPos, wsP,
     rxAlt [rliti "at", rliti "@"], wsP],
   rxCat [rliti "application", wsP, rliti "for", wsP, ropt (rxCat [rliti "the", wsP]), grpPos,
     rxAlt [rxCat [wsP, rxAlt [rliti "at", rliti "with"], Rx.wb],
            rxCat [wsS, Rx.eol false]]],
   rxCat [rxAlt [rliti "role", rliti "position", rliti "job"],
     wsS, Rx.cls fun c => c = '-' || c = '–' || c = ':', wsS,
     Rx.grp (rplus clsPositionChar)]]

/-- `isValidPosition` (lines 426-434). -/
def isValidPosition (text : Str) : Bool :=
  if text = [] || text.length < 3 || 100 < text.length then false
  else if jsTest text NOT_A_POSITION then false
  else if jsTest text JOB_TITLE_KEYWORDS then true
  else if 2 ≤ (jsSplit text wsP).length then true
  else false

/-- The shared shape of the pattern loops of `extractPositionFromBody` and
`extractPositionFromSubject` (lines 388-398 and 413-423, textually identical):
first pattern whose trimmed capture passes `isValidPosition` wins. -/
def positionStep (t : Str) (m? : Option (Nat × Nat × Caps)) (next : Option Str) : Option Str :=
  match m? with
  | some m =>
      if isValidPosition (jsTrim (cap1 t m)) then some (jsTrim (cap1 t m)) else next
  | none => next

def firstPositionMatch : List Rx → Str → Option Str
  | [], _ => none
  | p :: rest, t => positionStep t (jsExecFrom t p 0) (firstPositionMatch rest t)

/-- `extractPositionFromBody` (lines 372-399). -/
def extractPositionFromBody (body : Str) : Option Str :=
  firstPositionMatch bodyPositionPatterns body

/-- `extractPositionFromSubject` (lines 401-424). -/
def extractPositionFromSubject (subject : Str) : Option Str :=
  firstPositionMatch subjectPositionPatterns subject

/-- The reply-marker regexp `/^(re:|fwd?:|fw:)\s*/gi` (line 353). -/
def replyMarkerRx : Rx :=
  rxCat [Rx.bol false, Rx.grp (rxAlt
    [rliti "re:", rxCat [rliti "fw", ropt (rliti "d"), rliti ":"], rliti "fw:"]), wsS]

/-- The boilerplate regexp `/^(application|confirmation|thank you|update|your)\s*[-–:|]\s*/gi`
(lines 354-357). -/
def boilerplateRx : Rx :=
  rxCat [Rx.bol false, Rx.grp (rxAlt
    [rliti "application", rliti "confirmation", rliti "thank you", rliti "update",
     rliti "your"]),
    wsS, Rx.cls fun c => c = '-' || c = '–' || c = ':' || c = '|', wsS]

/-- The trailing-segment regexp `/\s*[-–|]\s*.+$/` (line 358, flagless). -/
def trailingSegmentRx : Rx :=
  rxCat [wsS, Rx.cls fun c => c = '-' || c = '–' || c = '|', wsS, rplus rdot, Rx.eol false]

/-- The cleaned-subject fallback of `extractPosition` (lines 352-359). -/
def cleanSubjectFallback (subject : Str) : Str :=
  jsTrim (jsReplaceFirst
    (jsReplaceAll (jsReplaceAll subject replyMarkerRx []) boilerplateRx [])
    trailingSegmentRx [])

/-- `extractPosition` (lines 342-370); the two strategy results and the
cleaned subject pass through JavaScript truthiness tests, so an empty string
falls through like `null`. -/
def extractPosition (e : ParsedEmail) (body : Str) : Str :=
  jsOrS (extractPositionFromBody body)
    (jsOrS (extractPositionFromSubject e.subject)
      (if cleanSubjectFallback e.subject ≠ [] &&
           jsTest (cleanSubjectFallback e.subject) JOB_TITLE_KEYWORDS &&
           !jsTest (cleanSubjectFallback e.subject) NOT_A_POSITION then
         cleanSubjectFallback e.subject
       else str "Unknown Position"))

/-! ### Salary, location, job link (lines 436-480) -/

/-- `[\d,]`. -/
def clsDigitComma : Rx := Rx.cls fun c => isAsciiDigit c || c = ','

/-- The range-separator class `[-–to]`. -/
def clsRangeSep : Rx := Rx.cls fun c => c = '-' || c = '–' || c = 't' || c = 'o'

/-- The salary patterns (lines 437-442), in source order. -/
def salaryPatterns : List Rx :=
  let money := rxCat [Rx.cls fun c => c = '$', rplus clsDigitComma]
  let kOpt := ropt (Rx.alt (rliti "k") (rliti "K"))
  [rxCat [money, wsS, rplus clsRangeSep, wsS, money, wsS,
     ropt (rxCat [rliti "per", wsP, rxAlt [rliti "year", rliti "annum", rliti "hr", rliti "hour"]])],
   rxCat [money, wsS, kOpt, wsS, rplus clsRangeSep, wsS, money, wsS, kOpt],
   rxCat [rliti "salary", wsS, ropt (rliti "range"), ropt (Rx.cls fun c => c = ':'), wsS, money],
   rxCat [rliti "compensation", ropt (Rx.cls fun c => c = ':'), wsS, money]]

/-- The pattern loop of `extractSalary` (lines 444-447): first match wins,
`match[0].trim()` is returned. -/
def match0Step (t : Str) (m? : Option (Nat × Nat × Caps)) (next : Option Str) : Option Str :=
  match m? with
  | some m => some (jsTrim (cap0 t m))
  | none => next

def firstMatch0 : List Rx → Str → Option Str
  | [], _ => none
  | p :: rest, t => match0Step t (jsExecFrom t p 0) (firstMatch0 rest t)

/-- `extractSalary` (lines 436-450). -/
def extractSalary (text : Str) : Option Str := firstMatch0 salaryPatterns text

/-- The location patterns (lines 453-456), in source order. -/
def locationPatterns : List Rx :=
  let clsLoc := Rx.cls fun c => isAsciiLetter c || jsWsChar c || c = ','
  [rxCat [rxAlt [rliti "location", rliti "based in", rliti "located in", rliti "office in"],
     ropt (Rx.cls fun c => c = ':'), wsS,
     Rx.grp (Rx.seq (rplus clsLoc)
       (ropt (rxCat [Rx.cls fun c => c = ',', wsS, clsLetterCI, clsLetterCI]))),
     rxAlt [Rx.cls fun c => c = '.', Rx.cls fun c => c = ',', Rx.cls fun c => c = Char.ofNat 10]],
   rxAlt [rliti "remote", rliti "hybrid",
     rxCat [rliti "on", ropt (Rx.cls fun c => c = '-'), rliti "site"]]]

/-- The pattern loop of `extractLocation` (lines 458-461): first match wins,
`(match[1] || match[0]).trim()` is returned (an absent or empty group falls
through to the whole match). -/
def match10Step (t : Str) (m? : Option (Nat × Nat × Caps)) (next : Option Str) : Option Str :=
  match m? with
  | some m => some (jsTrim (if cap1 t m = [] then cap0 t m else cap1 t m))
  | none => next

def firstMatch10 : List Rx → Str → Option Str
  | [], _ => none
  | p :: rest, t => match10Step t (jsExecFrom t p 0) (firstMatch10 rest t)

/-- `extractLocation` (lines 452-464). -/
def extractLocation (text : Str) : Option Str := firstMatch10 locationPatterns text

/-- `[\w-]`. -/
def clsWordDash : Rx := Rx.cls fun c => isWordChar c || c = '-'

/-- `[\w\-./?%&=#]`. -/
def clsUrlChar : Rx :=
  Rx.cls fun c =>
    isWordChar c || c = '-' || c = '.' || c = '/' || c = '?' || c = '%' ||
    c = '&' || c = '=' || c = '#'

/-- The job-posting URL pattern (lines 468-469). -/
def urlPattern : Rx :=
  rxCat [rliti "http", ropt (rliti "s"), rliti "://",
    rplus (rxCat [rplus clsWordDash, Rx.cls fun c => c = '.']), rplus clsWordDash,
    ropt (rxCat [Rx.cls fun c => c = '/', Rx.star true clsUrlChar]),
    rxAlt [rliti "job", rliti "career", rliti "position", rliti "apply", rliti "opening"],
    ropt (rxCat [Rx.cls fun c => c = '/', Rx.star true clsUrlChar])]

/-- The ATS URL fallback pattern (lines 474-475). -/
def atsUrlPattern : Rx :=
  rxCat [rliti "http", ropt (rliti "s"), rliti "://",
    ropt (rxCat [rplus clsWordDash, Rx.cls fun c => c = '.']),
    rxAlt [rliti "greenhouse", rliti "lever", rliti "workday", rliti "icims",
      rliti "smartrecruiters", rliti "ashbyhq", rliti "jobvite", rliti "bamboohr"],
    Rx.star true clsUrlChar]

/-- `extractJobLink` (lines 466-480): `text.match(g)` returns all matches and
the source takes element 0, the leftmost one. -/
def extractJobLink (text : Str) : Option Str :=
  match jsExecFrom text urlPattern 0 with
  | some m => some (cap0 text m)
  | none =>
      match jsExecFrom text atsUrlPattern 0 with
      | some m => some (cap0 text m)
      | none => none

/-! ### Record assembly (lines 79-131, 482-486) -/

/-- `STATUS_MAP` (lines 79-86); `JobStatus` is a union of string literals. -/
def STATUS_MAP : EmailCategory → Str
  | .application_confirmation => str "Applied"
  | .rejection => str "Rejected"
  | .interview_invitation => str "Interview"
  | .offer => str "Offer"
  | .follow_up => str "Applied"
  | .unknown => str "Applied"

/-- `generateFollowUpDate` (lines 482-486): `new Date(fromDate)`, then
`setDate(getDate() + daysFromNow)` (with a UTC process time zone this adds
exactly `daysFromNow * 86400000` milliseconds), then
`toISOString().split("T")[0]`.  On an Invalid Date, `toISOString` throws a
`RangeError`, modelled by `none`. -/
def generateFollowUpDate (fromDate : Str) (daysFromNow : Int) : Option Str :=
  (jsParseDate fromDate).map fun ms => isoDatePart (ms + daysFromNow * 86400000)

/-- The `followUpDate` conditional of `parseJobApplication` (lines 111-116),
applied to `email.date`; `none` models a `RangeError` escaping from
`generateFollowUpDate`. -/
def fuSelect (date : Str) (category : EmailCategory) : Option (Option Str) :=
  match category with
  | .application_confirmation => (generateFollowUpDate date 7).map some
  | .interview_invitation => (generateFollowUpDate date 1).map some
  | _ => some none

/-- JavaScript `x || undefined` on a nullable string: `null` and the empty
string become `undefined`. -/
def jsOrU (x : Option Str) : Option Str :=
  match x with
  | some s => if s = [] then none else some s
  | none => none

/-- `category.replace(/_/g, " ")` (line 128). -/
def underscoreToSpace (s : Str) : Str := s.map fun c => if c = '_' then ' ' else c

/-- `parseJobApplication` (lines 100-131), with the local
`const body = email.body.slice(0, 3000)` inlined at its use sites.  The result
is `none` exactly when the construction throws, which happens iff `new Date(email.date)` is an
Invalid Date (inside `generateFollowUpDate` for the two follow-up categories,
or at `new Date(email.date).toISOString()` for `dateApplied`). -/
def parseJobApplication (e : ParsedEmail) (category : EmailCategory) : Option JobApplication :=
  match fuSelect e.date category, (jsParseDate e.date).map isoDatePart with
  | some followUpDate, some dateApplied =>
      some
        { company := extractCompany e (e.body.take 3000)
          position := extractPosition e (e.body.take 3000)
          dateApplied := dateApplied
          status := STATUS_MAP category
          salaryRange := jsOrU (extractSalary (e.body.take 3000))
          location := jsOrU (extractLocation (e.body.take 3000))
          jobLink := jsOrU (extractJobLink (jsOrS e.htmlBody (e.body.take 3000)))
          emailThreadLink := str "https://mail.google.com/mail/u/0/#inbox/" ++ e.threadId
          followUpDate := followUpDate
          notes := str "Auto-tracked from email: " ++ underscoreToSpace (categoryStr category)
          sourceEmail := e.subject }
  | _, _ => none

/-! ### Specification-side definitions

These definitions follow the wording of the specification (not the source) and
are compared with the source-derived definitions in the refinement-style
theorems below. -/

/-- Does any pattern of the group match the text (spec §4.1: "if any of its
patterns match anywhere in the text")? -/
def matchesAny (ps : List Rx) (t : Str) : Bool := ps.any fun p => jsTest t p

/-- The classifier as the spec §4.1 states it: the groups are tried in the
fixed order offer, interview_invitation, rejection, application_confirmation,
follow_up; the first group with any match wins; otherwise `unknown`. -/
def classifyOrderedSpec (e : ParsedEmail) : EmailCategory :=
  let text := searchText e
  if matchesAny offerPatterns text then .offer
  else if matchesAny interviewPatterns text then .interview_invitation
  else if matchesAny rejectionPatterns text then .rejection
  else if matchesAny confirmationPatterns text then .application_confirmation
  else if matchesAny followUpPatterns text then .follow_up
  else .unknown

/-- The dispatch policy of spec §4.3: the first strategy in the list that
produces a candidate wins (a candidate that is the empty string falls through,
as JavaScript truthiness has it; the strategies in fact never produce one);
when all strategies fail, the sentinel is returned. -/
def firstCandidate : List (Option Str) → Str
  | [] => str "Unknown Company"
  | none :: rest => firstCandidate rest
  | some s :: rest => if s = [] then firstCandidate rest else s

/-- The follow-up rule of spec §4.6: `application_confirmation` is the email
date plus 7 calendar days, `interview_invitation` plus 1 day, every other
category has no follow-up date. -/
def followUpSpec (cat : EmailCategory) (date : Str) : Option Str :=
  match cat with
  | .application_confirmation => generateFollowUpDate date 7
  | .interview_invitation => generateFollowUpDate date 1
  | _ => none

/-! ### Concrete fixtures used by the claim witnesses -/

/-- An email with an unparseable date string. -/
def badDateEmail : ParsedEmail :=
  { id := str "1", threadId := str "t", «from» := str "jobs@acme.com",
    subject := str "Update", date := str "not-a-date",
    body := str "hello", htmlBody := none }

/-- A signal-free email with a valid date. -/
def sampleEmail : ParsedEmail :=
  { id := str "1", threadId := str "t", «from» := str "", subject := str "",
    date := str "2024-01-01T00:00:00Z", body := str "", htmlBody := none }

/-- The record `parseJobApplication` produces for `sampleEmail` under
`rejection`. -/
def sampleRejection : JobApplication :=
  { company := str "Unknown Company", position := str "Unknown Position",
    dateApplied := str "2024-01-01", status := str "Rejected",
    salaryRange := none, location := none, jobLink := none,
    emailThreadLink := str "https://mail.google.com/mail/u/0/#inbox/t",
    followUpDate := none, notes := str "Auto-tracked from email: rejection",
    sourceEmail := str "" }

/-- The record `parseJobApplication` produces for `sampleEmail` under
`application_confirmation`. -/
def sampleConfirmation : JobApplication :=
  { company := str "Unknown Company", position := str "Unknown Position",
    dateApplied := str "2024-01-01", status := str "Applied",
    salaryRange := none, location := none, jobLink := none,
    emailThreadLink := str "https://mail.google.com/mail/u/0/#inbox/t",
    followUpDate := some (str "2024-01-08"),
    notes := str "Auto-tracked from email: application confirmation",
    sourceEmail := str "" }

/-- An email whose text matches both an offer pattern and a rejection pattern. -/
def offerRejectEmail : ParsedEmail :=
  { id := str "1", threadId := str "t", «from» := str "jobs@acme.com",
    subject := str "Your job offer", date := str "2024-01-01T00:00:00Z",
    body := str "Unfortunately the start date moved.", htmlBody := none }

/-- An email sent through an ATS platform address. -/
def atsEmail : ParsedEmail :=
  { id := str "1", threadId := str "t",
    «from» := str "Greenhouse Recruiting <no-reply@greenhouse.io>",
    subject := str "Update on your application", date := str "2024-01-01T00:00:00Z",
    body := str "", htmlBody := none }

/-- An email whose `From` display name contains an ATS domain string while the
address itself is on a personal-mail domain. -/
def atsNameEmail : ParsedEmail :=
  { id := str "1", threadId := str "t",
    «from» := str "Greenhouse.io Fan Club <fan@gmail.com>",
    subject := str "hello", date := str "2024-01-01T00:00:00Z",
    body := str "", htmlBody := none }

/-! ### Sanity checks on concrete inputs -/

example : jsParseDate (str "2024-01-01T00:00:00Z") = some 1704067200000 := by decide
example : jsParseDate (str "not-a-date") = none := by decide
example : isoDatePart 1704067200000 = str "2024-01-01" := by decide
example : isoDatePart (1704067200000 + 7 * 86400000) = str "2024-01-08" := by decide

example :
    classifyEmail
      { id := str "1", threadId := str "t", «from» := str "a@b.com",
        subject := str "Job Offer", date := str "2024-01-01", body := str "hi",
        htmlBody := none } = .offer := by decide

example :
    classifyEmail
      { id := str "1", threadId := str "t", «from» := str "a@b.com",
        subject := str "hello", date := str "2024-01-01",
        body := str "We have received your application and will review it",
        htmlBody := none } = .application_confirmation := by decide

example : extractCompanyFromDomain (str "x@y.com") = some (str "Y") := by decide
example : extractCompanyFromSender (str "Acme Inc <jobs@acme.com>") = some (str "Acme") := by decide
example :
    extractCompanyFromBody (str "your application to Acme has been received") =
      some (str "Acme") := by decide

example :
    extractPositionFromBody
      (str "We received your application for the Senior Backend Engineer position at Acme Corp.") =
      some (str "Senior Backend Engineer") := by decide

example : extractSalary (str "salary range: $100,000") = some (str "salary range: $100,000") := by
  decide

example : extractLocation (str "This role is remote friendly") = some (str "remote") := by decide

set_option maxRecDepth 40000 in
example :
    classifyEmail
      { id := str "1", threadId := str "t",
        «from» := str "Greenhouse Recruiting <no-reply@greenhouse.io>",
        subject := str "Update on your application - Acme Corp",
        date := str "2024-01-01T00:00:00Z",
        body := str "Unfortunately, we have decided to move forward with other candidates for the Data Analyst role at Acme Corp.",
        htmlBody := none } = .rejection := by decide

set_option maxRecDepth 40000 in
example :
    extractCompanyFromBody
      (str "Unfortunately, we have decided to move forward with other candidates for the Data Analyst role at Acme Corp.") =
      some (str "Acme") := by decide

set_option maxRecDepth 40000 in
example :
    extractPositionFromBody
      (str "Unfortunately, we have decided to move forward with other candidates for the Data Analyst role at Acme Corp.") =
      some (str "Data Analyst") := by decide

set_option maxRecDepth 40000 in
example :
    extractCompanyFromBody
      (str "We received your application for the Senior Backend Engineer position at Acme Corp.") =
      some (str "Acme") := by decide

set_option maxRecDepth 40000 in
example :
    classifyEmail
      { id := str "1", threadId := str "t", «from» := str "careers@acme.com",
        subject := str "Thank you for applying to Acme Corp",
        date := str "2024-01-01T00:00:00Z",
        body := str "We received your application for the Senior Backend Engineer position at Acme Corp.",
        htmlBody := none } = .application_confirmation := by decide

/-! ### Helper lemmas -/

theorem firstCandidate_cons (x : Option Str) (rest : List (Option Str)) :
    firstCandidate (x :: rest) = jsOrS x (firstCandidate rest) := by
  cases x <;> simp [firstCandidate, jsOrS]

theorem jsOrS_ne_nil (a : Option Str) (d : Str) (hd : d ≠ []) : jsOrS a d ≠ [] := by
  cases a with
  | none => simpa [jsOrS] using hd
  | some s =>
      by_cases hs : s = []
      · simpa [jsOrS, hs] using hd
      · simp [jsOrS, hs]

theorem jsOrU_ne_nil (x : Option Str) (s : Str) (h : jsOrU x = some s) : s ≠ [] := by
  cases x with
  | none => simp [jsOrU] at h
  | some v =>
      by_cases hv : v = []
      · simp [jsOrU, hv] at h
      · simp only [jsOrU, if_neg hv, Option.some_inj] at h
        exact h ▸ hv


theorem firstCompanyMatch_length (ps : List Rx) (t s : Str)
    (h : firstCompanyMatch ps t = some s) : 2 ≤ s.length ∧ s.length < 80 := by
  induction ps with
  | nil => exact absurd h (by rw [firstCompanyMatch]; simp)
  | cons p rest ih =>
      rw [firstCompanyMatch] at h
      unfold companyStep at h
      split at h
      · split at h
        · split at h
          · injection h with h
            subst h
            rename_i hg
            simpa using hg
          · exact ih h
        · exact ih h
      · exact ih h

theorem extractCompanyFromSender_length (f s : Str)
    (h : extractCompanyFromSender f = some s) : 2 ≤ s.length ∧ s.length < 80 := by
  unfold extractCompanyFromSender at h
  split at h
  · exact absurd h (by simp)
  · split at h
    · exact absurd h (by simp)
    · split at h
      · split at h
        · injection h with h
          subst h
          rename_i hg
          simpa using hg
        · exact absurd h (by simp)
      · exact absurd h (by simp)

theorem firstPositionMatch_valid (ps : List Rx) (t s : Str)
    (h : firstPositionMatch ps t = some s) : isValidPosition s = true := by
  induction ps with
  | nil => exact absurd h (by rw [firstPositionMatch]; simp)
  | cons p rest ih =>
      rw [firstPositionMatch] at h
      unfold positionStep at h
      split at h
      · split at h
        · injection h with h
          subst h
          rename_i hv
          exact hv
        · exact ih h
      · exact ih h

theorem isValidPosition_ne_nil (s : Str) (h : isValidPosition s = true) : s ≠ [] := by
  intro hs
  subst hs
  simp [isValidPosition] at h

theorem isoDatePart_ne_nil (ms : Int) : isoDatePart ms ≠ [] := by
  unfold isoDatePart
  simp

theorem extractCompany_ne_nil (e : ParsedEmail) (b : Str) : extractCompany e b ≠ [] := by
  unfold extractCompany
  split <;>
    exact jsOrS_ne_nil _ _ (jsOrS_ne_nil _ _ (jsOrS_ne_nil _ _ (jsOrS_ne_nil _ _ (by decide))))

theorem extractPosition_ne_nil (e : ParsedEmail) (b : Str) : extractPosition e b ≠ [] := by
  unfold extractPosition
  refine jsOrS_ne_nil _ _ (jsOrS_ne_nil _ _ ?_)
  split
  · rename_i hc
    intro hnil
    rw [hnil] at hc
    simp at hc
  · decide

theorem parse_fields (e : ParsedEmail) (cat : EmailCategory) (r : JobApplication)
    (h : parseJobApplication e cat = some r) :
    r.company = extractCompany e (e.body.take 3000) ∧
    r.position = extractPosition e (e.body.take 3000) ∧
    r.status = STATUS_MAP cat ∧
    r.salaryRange = jsOrU (extractSalary (e.body.take 3000)) ∧
    r.location = jsOrU (extractLocation (e.body.take 3000)) ∧
    r.jobLink = jsOrU (extractJobLink (jsOrS e.htmlBody (e.body.take 3000))) ∧
    fuSelect e.date cat = some r.followUpDate := by
  unfold parseJobApplication at h
  split at h
  · rename_i fu da hfu hda
    injection h with h
    subst h
    exact ⟨rfl, rfl, rfl, rfl, rfl, rfl, by rw [hfu]⟩
  · exact absurd h (by simp)

theorem extractCompany_congr (e1 e2 : ParsedEmail)
    (hf : e1.«from» = e2.«from») (hs : e1.subject = e2.subject) (b : Str) :
    extractCompany e1 b = extractCompany e2 b := by
  unfold extractCompany
  rw [hf, hs]

theorem extractPosition_congr (e1 e2 : ParsedEmail)
    (hs : e1.subject = e2.subject) (b : Str) :
    extractPosition e1 b = extractPosition e2 b := by
  unfold extractPosition
  rw [hs]

theorem generateFollowUpDate_ne_nil (d : Str) (n : Int) (s : Str)
    (h : generateFollowUpDate d n = some s) : s ≠ [] := by
  unfold generateFollowUpDate at h
  rcases hp : jsParseDate d with _ | ms <;> rw [hp] at h <;> simp at h
  exact h ▸ isoDatePart_ne_nil _

theorem fuSelect_some_ne_nil (d : Str) (cat : EmailCategory) (s : Str)
    (h : fuSelect d cat = some (some s)) : s ≠ [] := by
  cases cat <;> simp only [fuSelect] at h
  case application_confirmation =>
    rcases hg : generateFollowUpDate d 7 with _ | v <;> rw [hg] at h <;> simp at h
    exact h ▸ generateFollowUpDate_ne_nil d 7 v hg
  case interview_invitation =>
    rcases hg : generateFollowUpDate d 1 with _ | v <;> rw [hg] at h <;> simp at h
    exact h ▸ generateFollowUpDate_ne_nil d 1 v hg
  all_goals simp at h

theorem followUp_of_parse (e : ParsedEmail) (cat : EmailCategory) (r : JobApplication)
    (h : parseJobApplication e cat = some r) :
    r.followUpDate = followUpSpec cat e.date := by
  have hf := (parse_fields e cat r h).2.2.2.2.2.2
  cases cat <;> simp only [fuSelect, followUpSpec] at hf ⊢
  case application_confirmation =>
    rcases hg : generateFollowUpDate e.date 7 with _ | v <;> rw [hg] at hf <;> simp at hf
    exact hf.symm
  case interview_invitation =>
    rcases hg : generateFollowUpDate e.date 1 with _ | v <;> rw [hg] at hf <;> simp at hf
    exact hf.symm
  all_goals simp at hf; exact hf.symm

/-! ### The claims -/

/-- C1: the claim states that `classifyEmail` and `parseJobApplication` return
a value without raising for every input, including non-ISO date strings.
`classifyEmail` does, but `parseJobApplication` throws a `RangeError` for any
email whose date string is not a parseable date: `new Date("not-a-date")` is an
Invalid Date, and `toISOString` on it (reached via `generateFollowUpDate` for
the two follow-up categories and via the `dateApplied` field for every
category) throws.  The thrown run is modelled by `none`. -/
theorem claim_C1_invalid_date_throws :
    classifyEmail badDateEmail = .unknown ∧
    parseJobApplication badDateEmail .rejection = none ∧
    parseJobApplication badDateEmail .application_confirmation = none := by
  refine ⟨by decide, by decide, by decide⟩

/-- C2: `classifyEmail` agrees with the spec's ordered first-match-wins
classifier (groups in the order offer, interview_invitation, rejection,
application_confirmation, follow_up over `subject ++ " " ++ body`, `unknown`
when nothing matches), and an email matching both an offer pattern and a
rejection pattern classifies as `offer`. -/
theorem claim_C2_ordered_first_match (e : ParsedEmail) :
    classifyEmail e = classifyOrderedSpec e ∧
    (matchesAny offerPatterns (searchText e) = true →
      matchesAny rejectionPatterns (searchText e) = true →
      classifyEmail e = .offer) := by
  constructor
  · rfl
  · intro h1 _
    unfold classifyEmail classifyGo CATEGORY_PATTERNS
    simp only [matchesAny] at h1
    simp [h1]

/-- Witness for C2 at an email matching both an offer and a rejection pattern. -/
theorem claim_C2_witness :
    matchesAny offerPatterns (searchText offerRejectEmail) = true ∧
    matchesAny rejectionPatterns (searchText offerRejectEmail) = true ∧
    classifyEmail offerRejectEmail = .offer :=
  ⟨by decide, by decide,
   (claim_C2_ordered_first_match offerRejectEmail).2 (by decide) (by decide)⟩

/-- C3 counterexample: the sender-domain strategy applies no length
validation; for the sender `x@y.com` it returns the single-character candidate
`Y` instead of rejecting it, refuting the claim that a candidate of cleaned
length 1 is rejected by every strategy. -/
theorem claim_C3_counterexample :
    extractCompanyFromDomain (str "x@y.com") = some (str "Y") ∧
    (str "Y").length = 1 := by
  refine ⟨by decide, by decide⟩

/-- C3 (amended): the body, sender-display-name and subject strategies only
return candidates of cleaned length in `[2, 80)`; the sender-domain strategy
has no length validation (see the counterexample). -/
theorem claim_C3_length_validation :
    (∀ b s, extractCompanyFromBody b = some s → 2 ≤ s.length ∧ s.length < 80) ∧
    (∀ f s, extractCompanyFromSender f = some s → 2 ≤ s.length ∧ s.length < 80) ∧
    (∀ u s, extractCompanyFromSubject u = some s → 2 ≤ s.length ∧ s.length < 80) :=
  ⟨fun _ s h => firstCompanyMatch_length _ _ s h,
   fun f s h => extractCompanyFromSender_length f s h,
   fun _ s h => firstCompanyMatch_length _ _ s h⟩

/-- Witness for C3 at a body whose first pattern captures the candidate `Acme`. -/
theorem claim_C3_witness :
    2 ≤ (str "Acme").length ∧ (str "Acme").length < 80 :=
  claim_C3_length_validation.1
    (str "your application to Acme has been received") (str "Acme") (by decide)

/-- C4: company resolution tries the strategies in the order body, subject,
sender display name, sender domain when the sender is detected as an ATS
domain, and in the order sender display name, body, subject, sender domain
otherwise; the first strategy with a candidate wins and the sentinel
`Unknown Company` is returned when all four fail. -/
theorem claim_C4_dispatch_order (e : ParsedEmail) (b : Str) :
    (isAtsSender e.«from» = true →
      extractCompany e b = firstCandidate
        [extractCompanyFromBody b, extractCompanyFromSubject e.subject,
         extractCompanyFromSender e.«from», extractCompanyFromDomain e.«from»]) ∧
    (isAtsSender e.«from» = false →
      extractCompany e b = firstCandidate
        [extractCompanyFromSender e.«from», extractCompanyFromBody b,
         extractCompanyFromSubject e.subject, extractCompanyFromDomain e.«from»]) ∧
    (extractCompanyFromBody b = none → extractCompanyFromSender e.«from» = none →
      extractCompanyFromSubject e.subject = none →
      extractCompanyFromDomain e.«from» = none →
      extractCompany e b = str "Unknown Company") := by
  refine ⟨fun h => ?_, fun h => ?_, fun h1 h2 h3 h4 => ?_⟩
  · unfold extractCompany
    simp [h, firstCandidate_cons, firstCandidate]
  · unfold extractCompany
    simp [h, firstCandidate_cons, firstCandidate]
  · unfold extractCompany
    rw [h1, h2, h3, h4]
    cases isAtsSender e.«from» <;> simp [jsOrS]

/-- Witness for C4 at an email sent from a `greenhouse.io` address. -/
theorem claim_C4_witness :
    isAtsSender atsEmail.«from» = true ∧
    extractCompany atsEmail (str "") = firstCandidate
      [extractCompanyFromBody (str ""), extractCompanyFromSubject atsEmail.subject,
       extractCompanyFromSender atsEmail.«from», extractCompanyFromDomain atsEmail.«from»] :=
  ⟨by decide, (claim_C4_dispatch_order atsEmail (str "")).1 (by decide)⟩

/-- C5: the follow-up date of a produced record is a pure function of category
and email date — `application_confirmation` gets the email date plus 7 days,
`interview_invitation` plus 1 day, every other category none — and the date
`2024-01-01T00:00:00Z` yields `2024-01-08`, `2024-01-02`, and no follow-up
respectively. -/
theorem claim_C5_follow_up_date :
    (∀ e cat r, parseJobApplication e cat = some r →
      r.followUpDate = followUpSpec cat e.date) ∧
    (∀ e r, e.date = str "2024-01-01T00:00:00Z" →
      (parseJobApplication e .application_confirmation = some r →
        r.followUpDate = some (str "2024-01-08")) ∧
      (parseJobApplication e .interview_invitation = some r →
        r.followUpDate = some (str "2024-01-02")) ∧
      (parseJobApplication e .rejection = some r → r.followUpDate = none)) := by
  refine ⟨followUp_of_parse, fun e r hd => ⟨fun h => ?_, fun h => ?_, fun h => ?_⟩⟩ <;>
    rw [followUp_of_parse e _ r h, hd] <;> decide

/-- Witness for C5: the sample confirmation record carries follow-up `2024-01-08`. -/
theorem claim_C5_witness :
    parseJobApplication sampleEmail .application_confirmation = some sampleConfirmation ∧
    sampleConfirmation.followUpDate = some (str "2024-01-08") :=
  ⟨by decide,
   (claim_C5_follow_up_date.2 sampleEmail sampleConfirmation (by decide)).1 (by decide)⟩

/-- C6: the status of a produced record is `STATUS_MAP` of the category, and
`STATUS_MAP` is exactly the total mapping application_confirmation→Applied,
rejection→Rejected, interview_invitation→Interview, offer→Offer,
follow_up→Applied, unknown→Applied. -/
theorem claim_C6_status_map :
    (∀ e cat r, parseJobApplication e cat = some r → r.status = STATUS_MAP cat) ∧
    STATUS_MAP .application_confirmation = str "Applied" ∧
    STATUS_MAP .rejection = str "Rejected" ∧
    STATUS_MAP .interview_invitation = str "Interview" ∧
    STATUS_MAP .offer = str "Offer" ∧
    STATUS_MAP .follow_up = str "Applied" ∧
    STATUS_MAP .unknown = str "Applied" :=
  ⟨fun e cat r h => (parse_fields e cat r h).2.2.1, rfl, rfl, rfl, rfl, rfl, rfl⟩

/-- Witness for C6 at the sample rejection record. -/
theorem claim_C6_witness :
    parseJobApplication sampleEmail .rejection = some sampleRejection ∧
    sampleRejection.status = STATUS_MAP .rejection :=
  ⟨by decide, claim_C6_status_map.1 sampleEmail .rejection sampleRejection (by decide)⟩

/-- C7: in every produced record the company and position are non-empty, and
each optional field (salary range, location, job link, follow-up date) is
either absent or a non-empty string. -/
theorem claim_C7_no_empty_fields (e : ParsedEmail) (cat : EmailCategory)
    (r : JobApplication) (h : parseJobApplication e cat = some r) :
    r.company ≠ [] ∧ r.position ≠ [] ∧
    (∀ s, r.salaryRange = some s → s ≠ []) ∧
    (∀ s, r.location = some s → s ≠ []) ∧
    (∀ s, r.jobLink = some s → s ≠ []) ∧
    (∀ s, r.followUpDate = some s → s ≠ []) := by
  obtain ⟨hc, hp, _, hsal, hloc, hlink, hfu⟩ := parse_fields e cat r h
  refine ⟨?_, ?_, ?_, ?_, ?_, ?_⟩
  · rw [hc]; exact extractCompany_ne_nil _ _
  · rw [hp]; exact extractPosition_ne_nil _ _
  · intro s hs; exact jsOrU_ne_nil _ s (hsal ▸ hs)
  · intro s hs; exact jsOrU_ne_nil _ s (hloc ▸ hs)
  · intro s hs; exact jsOrU_ne_nil _ s (hlink ▸ hs)
  · intro s hs
    rw [hs] at hfu
    exact fuSelect_some_ne_nil e.date cat s hfu

/-- Witness for C7: the signal-free sample email yields exactly the sentinels. -/
theorem claim_C7_witness :
    parseJobApplication sampleEmail .rejection = some sampleRejection ∧
    sampleRejection.company = str "Unknown Company" ∧
    sampleRejection.position = str "Unknown Position" ∧
    sampleRejection.company ≠ [] ∧ sampleRejection.position ≠ [] :=
  ⟨by decide, by decide, by decide,
   (claim_C7_no_empty_fields sampleEmail .rejection sampleRejection (by decide)).1,
   (claim_C7_no_empty_fields sampleEmail .rejection sampleRejection (by decide)).2.1⟩

/-- C8: `parseJobApplication` reads at most the first 3000 characters of the
plain-text body: two emails agreeing on subject, sender header, date, thread
id, HTML body and the first 3000 body characters produce identical records for
every category. -/
theorem take_length_append (l t : Str) : (l ++ t).take l.length = l := by
  induction l with
  | nil => rfl
  | cons c rest ih => simp [ih]

theorem claim_C8_body_prefix_bound (e1 e2 : ParsedEmail) (cat : EmailCategory)
    (hs : e1.subject = e2.subject) (hf : e1.«from» = e2.«from»)
    (hd : e1.date = e2.date) (ht : e1.threadId = e2.threadId)
    (hh : e1.htmlBody = e2.htmlBody)
    (hb : e1.body.take 3000 = e2.body.take 3000) :
    parseJobApplication e1 cat = parseJobApplication e2 cat := by
  unfold parseJobApplication
  simp only [hs, hf, hd, ht, hh, hb, extractCompany_congr e1 e2 hf hs,
    extractPosition_congr e1 e2 hs]

/-- Witness for C8 at two emails whose bodies differ only at index 3000. -/
theorem claim_C8_witness :
    (List.replicate 3000 'a' ++ [Char.ofNat 120]).take 3000 =
      (List.replicate 3000 'a' ++ [Char.ofNat 121]).take 3000 ∧
    parseJobApplication
        { id := str "1", threadId := str "t", «from» := str "a@b.com",
          subject := str "s", date := str "2024-01-01T00:00:00Z",
          body := List.replicate 3000 'a' ++ [Char.ofNat 120], htmlBody := none }
        .offer =
      parseJobApplication
        { id := str "2", threadId := str "t", «from» := str "a@b.com",
          subject := str "s", date := str "2024-01-01T00:00:00Z",
          body := List.replicate 3000 'a' ++ [Char.ofNat 121], htmlBody := none }
        .offer := by
  have hb : (List.replicate 3000 'a' ++ [Char.ofNat 120]).take 3000 =
      (List.replicate 3000 'a' ++ [Char.ofNat 121]).take 3000 := by
    have h1 := take_length_append (List.replicate 3000 'a') [Char.ofNat 120]
    have h2 := take_length_append (List.replicate 3000 'a') [Char.ofNat 121]
    rw [List.length_replicate] at h1 h2
    rw [h1, h2]
  exact ⟨hb, claim_C8_body_prefix_bound _ _ .offer rfl rfl rfl rfl rfl hb⟩

/-- C9: the two textually duplicated classifier implementations in the source
are extensionally equal: their pattern tables and iteration logic coincide,
so they classify every email identically. -/
theorem claim_C9_classifiers_equal (e : ParsedEmail) :
    classifyEmail e = classifyEmailOld e := rfl

/-- C10: ATS detection is a case-insensitive substring test over the entire
raw sender header, not over the parsed address domain: whenever any of the 14
ATS domain strings occurs anywhere in the lower-cased header (including inside
the display name or the local part), `extractCompany` uses the ATS strategy
order body, subject, sender display name, sender domain. -/
theorem claim_C10_ats_substring_detection (e : ParsedEmail) (b : Str)
    (h : (ATS_DOMAINS.any fun d => jsIncludes (jsToLower e.«from») d) = true) :
    extractCompany e b =
      jsOrS (extractCompanyFromBody b)
        (jsOrS (extractCompanyFromSubject e.subject)
          (jsOrS (extractCompanyFromSender e.«from»)
            (jsOrS (extractCompanyFromDomain e.«from») (str "Unknown Company")))) := by
  have h2 : isAtsSender e.«from» = true := h
  unfold extractCompany
  simp [h2]

/-- Witness for C10 at an email whose display name contains `Greenhouse.io` while
the address is on `gmail.com`. -/
theorem claim_C10_witness :
    (ATS_DOMAINS.any fun d => jsIncludes (jsToLower atsNameEmail.«from») d) = true ∧
    extractCompany atsNameEmail (str "") =
      jsOrS (extractCompanyFromBody (str ""))
        (jsOrS (extractCompanyFromSubject atsNameEmail.subject)
          (jsOrS (extractCompanyFromSender atsNameEmail.«from»)
            (jsOrS (extractCompanyFromDomain atsNameEmail.«from») (str "Unknown Company")))) :=
  ⟨by decide, claim_C10_ats_substring_detection atsNameEmail (str "") (by decide)⟩
